import Mathlib

/-!
Shallow embedding of `src/server.js` (cost-req-render): an Express + PostgreSQL
CRUD backend for customer requirements, with Cloudinary media uploads.

The database state is modelled as lists of rows (one list per table) plus the
serial-id counters and a logical clock standing for `CURRENT_TIMESTAMP`
(Postgres assigns monotonically increasing `created_at` values in our model,
one tick per insert).  JavaScript request fields that may be absent are
`Option String` (`none` = `undefined`, which node-postgres serializes as SQL
NULL); JS truthiness on strings is the `falsy` predicate (absent or empty).
The external Cloudinary service is an oracle: each incoming file carries the
outcome its upload would have (`some url` on success, `none` on failure).
-/

/-- An uploaded file as multer hands it to the route: its declared MIME type,
together with the oracle outcome of submitting it to the external hosting
service (`some secureUrl` if the upload succeeds, `none` if it fails). -/
structure MFile where
  mimetype : String
  uploadResult : Option String
deriving Repr, DecidableEq

/-- The classification test `file.mimetype.startsWith('image')` in
`uploadMediaToCloudinary` (`src/server.js` line 87). -/
def MFile.isImage (f : MFile) : Bool := f.mimetype.startsWith "image"

/-- Result of `uploadMediaToCloudinary`: the collected secure URLs. -/
structure UploadResult where
  images : List String
  videos : List String
deriving Repr, DecidableEq

/-- The helper `uploadMediaToCloudinary` (`src/server.js` lines 78-103): iterate over the
files in order; classify each as image exactly when its MIME type starts with
`image`, else video; on upload success push the returned URL onto the
corresponding list; on upload failure the catch block only logs, so the file
is skipped and the loop continues. -/
def uploadMediaToCloudinary : List MFile → UploadResult
  | [] => ⟨[], []⟩
  | f :: fs =>
    let rest := uploadMediaToCloudinary fs
    match f.uploadResult with
    | none => rest
    | some url =>
      if f.isImage then ⟨url :: rest.images, rest.videos⟩
      else ⟨rest.images, url :: rest.videos⟩

/-- A row of the `requirements` table (`src/server.js` lines 46-57). -/
structure RequirementRow where
  id : Nat
  customer : String
  contact : Option String
  type : String
  details : String
  follow_up : Option String
  status : Option String
  images : List String
  videos : List String
  created_at : Nat
deriving Repr, DecidableEq

/-- A row of the `comments` table (`src/server.js` lines 59-66). -/
structure CommentRow where
  id : Nat
  requirement_id : Nat
  text : Option String
  images : List String
  videos : List String
  created_at : Nat
deriving Repr, DecidableEq

/-- A row of the `requirement_types` table (`src/server.js` lines 41-44). -/
structure TypeRow where
  id : Nat
  name : String
deriving Repr, DecidableEq

/-- The PostgreSQL database state: the three tables, the serial counters,
and a logical clock standing for `CURRENT_TIMESTAMP`. -/
structure DB where
  requirement_types : List TypeRow
  requirements : List RequirementRow
  comments : List CommentRow
  nextTypeId : Nat
  nextReqId : Nat
  nextCommentId : Nat
  clock : Nat
deriving Repr, DecidableEq

/-- The freshly initialized database (after `initializeDb`). -/
def DB.empty : DB := ⟨[], [], [], 1, 1, 1, 0⟩

/-- JavaScript truthiness on an optional string field: `!x` holds when the
field is absent (`undefined`) or the empty string. -/
def falsy : Option String → Bool
  | none => true
  | some s => s == ""

/-- Errors raised by the backing store and caught by the route handlers. -/
inductive StoreError where
  | malformedQuery
  | fkViolation
  | uniqueViolation
deriving Repr, DecidableEq

/-- Result of a route handler: the HTTP status, the JSON body (the returned
row, when one is sent), and the database state after the request. -/
structure HResult (α : Type) where
  status : Nat
  body : Option α
  db : DB
deriving Repr, DecidableEq

/-- Result of `POST /api/requirements`, additionally recording whether the
handler reached the uploader call and the store call (used to check that
validation happens first). -/
structure CreateReqResult where
  status : Nat
  body : Option RequirementRow
  db : DB
  uploaderCalled : Bool
  storeCalled : Bool
deriving Repr, DecidableEq

/-- Result of `POST /api/requirements/:id/comments`, recording whether the
handler reached the uploader call. -/
structure AddCommentResult where
  status : Nat
  body : Option CommentRow
  db : DB
  uploaderCalled : Bool
deriving Repr, DecidableEq

/-- Handler for `POST /api/requirements` (`src/server.js` lines 126-146): validate that
`customer`, `type` and `details` are truthy (else 400 before any uploader or
store call); upload the media; INSERT a row — `status` is not in the column
list, so it takes the table default `'Pending'`, and `created_at` takes
`CURRENT_TIMESTAMP` — and return it with 201. -/
def createRequirement (db : DB) (customer contact type details followUp : Option String)
    (files : List MFile) : CreateReqResult :=
  if falsy customer || falsy type || falsy details then
    ⟨400, none, db, false, false⟩
  else
    let up := uploadMediaToCloudinary files
    let row : RequirementRow :=
      ⟨db.nextReqId, customer.getD "", contact, type.getD "", details.getD "",
        followUp, some "Pending", up.images, up.videos, db.clock⟩
    ⟨201, some row,
      { db with
        requirements := db.requirements ++ [row],
        nextReqId := db.nextReqId + 1,
        clock := db.clock + 1 },
      true, true⟩

/-- Handler for `PUT /api/requirements/:id/status` (`src/server.js` lines 149-165): run
`UPDATE requirements SET status = $1 WHERE id = $2 RETURNING *`.  The handler
does not validate `status`: `req.body.status` is passed verbatim, and an
absent field (`undefined`) is serialized as SQL NULL.  Zero returned rows
give 404; otherwise 200 with the first returned row. -/
def updateStatus (db : DB) (id : Nat) (status : Option String) : HResult RequirementRow :=
  let returned := (db.requirements.filter (fun r => r.id == id)).map
    (fun r => { r with status := status })
  let updated := db.requirements.map
    (fun q => if q.id == id then { q with status := status } else q)
  match returned with
  | [] => ⟨404, none, db⟩
  | r :: _ => ⟨200, some r, { db with requirements := updated }⟩

/-- The SQL text the delete-requirement handler sends to the store
(`src/server.js` line 198).  Note the misspelled keyword `RETETING`. -/
def deleteRequirementSQL : String := "DELETE FROM requirements WHERE id = $1 RETETING *;"

/-- The store's execution of a delete-requirement statement: it accepts
exactly the grammatical statement `DELETE FROM requirements WHERE id = $1
RETURNING *;` — deleting the matching rows, cascading the delete to their
comments (`ON DELETE CASCADE` on `comments.requirement_id`), and returning
the deleted rows — and rejects any other text with a parse error. -/
def runDeleteRequirement (db : DB) (query : String) (id : Nat) :
    Except StoreError (List RequirementRow × DB) :=
  if query == "DELETE FROM requirements WHERE id = $1 RETURNING *;" then
    .ok (db.requirements.filter (fun r => r.id == id),
      { db with
        requirements := db.requirements.filter (fun r => !(r.id == id)),
        comments := db.comments.filter (fun c => !(c.requirement_id == id)) })
  else
    .error .malformedQuery

/-- Handler for `DELETE /api/requirements/:id` (`src/server.js` lines 192-207): run
`deleteRequirementSQL`; a store error is caught and answered with 500; zero
returned rows give 404; otherwise 204 with no body. -/
def deleteRequirement (db : DB) (id : Nat) : HResult RequirementRow :=
  match runDeleteRequirement db deleteRequirementSQL id with
  | .error _ => ⟨500, none, db⟩
  | .ok (rows, db') =>
    match rows with
    | [] => ⟨404, none, db⟩
    | _ :: _ => ⟨204, none, db'⟩

/-- The store's INSERT into `comments`: the `requirement_id` column references
`requirements(id)`, so inserting a non-null id with no matching requirement
raises a foreign-key violation; otherwise the row is appended with a fresh
serial id and the current timestamp. -/
def insertComment (db : DB) (reqId : Nat) (text : Option String)
    (images videos : List String) : Except StoreError (CommentRow × DB) :=
  if db.requirements.any (fun r => r.id == reqId) then
    let row : CommentRow := ⟨db.nextCommentId, reqId, text, images, videos, db.clock⟩
    .ok (row,
      { db with
        comments := db.comments ++ [row],
        nextCommentId := db.nextCommentId + 1,
        clock := db.clock + 1 })
  else
    .error .fkViolation

/-- Handler for `POST /api/requirements/:id/comments` (`src/server.js` lines 210-231):
400 when the text is falsy and no files were uploaded; otherwise upload the
media and INSERT the comment; a store error (such as the foreign-key
violation for a nonexistent requirement) is caught and answered with 500;
success answers 201 with the created row. -/
def addComment (db : DB) (reqId : Nat) (text : Option String)
    (files : List MFile) : AddCommentResult :=
  if falsy text && files.isEmpty then
    ⟨400, none, db, false⟩
  else
    let up := uploadMediaToCloudinary files
    match insertComment db reqId text up.images up.videos with
    | .ok (row, db') => ⟨201, some row, db', true⟩
    | .error _ => ⟨500, none, db, true⟩

/-- The store's INSERT into `requirement_types`: `name` is UNIQUE, so a
duplicate raises a uniqueness violation; otherwise the row is appended with
a fresh serial id. -/
def insertType (db : DB) (name : String) : Except StoreError (TypeRow × DB) :=
  if db.requirement_types.any (fun t => t.name == name) then
    .error .uniqueViolation
  else
    let row : TypeRow := ⟨db.nextTypeId, name⟩
    .ok (row,
      { db with
        requirement_types := db.requirement_types ++ [row],
        nextTypeId := db.nextTypeId + 1 })

/-- Handler for `POST /api/types` (`src/server.js` lines 245-260): 400 when `name` is
falsy; otherwise INSERT; any store error — including the uniqueness violation
for a duplicate name — is caught and answered with 500; success answers 201
with the created row. -/
def createType (db : DB) (name : Option String) : HResult TypeRow :=
  if falsy name then
    ⟨400, none, db⟩
  else
    match insertType db (name.getD "") with
    | .ok (row, db') => ⟨201, some row, db'⟩
    | .error _ => ⟨500, none, db⟩

/-- A requirement as serialized by `GET /api/requirements`: the row with its
`comments` property attached. -/
structure RequirementWithComments where
  row : RequirementRow
  comments : List CommentRow
deriving Repr, DecidableEq

/-- The query `SELECT * FROM comments WHERE requirement_id = $1 ORDER BY created_at ASC`
(`src/server.js` line 115). -/
def commentsFor (db : DB) (reqId : Nat) : List CommentRow :=
  List.insertionSort (fun a b => a.created_at ≤ b.created_at)
    (db.comments.filter (fun c => c.requirement_id == reqId))

/-- Handler for `GET /api/requirements` (`src/server.js` lines 108-123):
`SELECT * FROM requirements ORDER BY created_at DESC`, then attach each
requirement's comments ordered by `created_at ASC`. -/
def listRequirements (db : DB) : List RequirementWithComments :=
  (List.insertionSort (fun a b => b.created_at ≤ a.created_at) db.requirements).map
    (fun r => ⟨r, commentsFor db r.id⟩)

/-- Handler for `GET /api/types` (`src/server.js` lines 234-242):
`SELECT * FROM requirement_types ORDER BY name ASC`. -/
def listTypes (db : DB) : List TypeRow :=
  List.insertionSort (fun a b => a.name ≤ b.name) db.requirement_types

/-! ## Scenario states used by witnesses and counterexamples -/

/-- A sample file whose upload would succeed with URL `u1`. -/
def sampleImage : MFile := ⟨"image/png", some "u1"⟩

/-- The database after creating one requirement (customer `Acme`, type `Bug`,
details `X`, no media) in the fresh database; the created row has id 1. -/
def dbAcme : DB :=
  (createRequirement DB.empty (some "Acme") none (some "Bug") (some "X") none []).db

/-- The database after creating the requirement type `Bug` in the fresh
database. -/
def dbBugType : DB := (createType DB.empty (some "Bug")).db

/-! ## C1 — delete requirement -/

/-- C1: the claim says an existing id is deleted with 204 (cascading its
comments) and a missing id answers 404.  The source's SQL text misspells
`RETURNING` as `RETETING` (`src/server.js` line 198), so the store rejects
the statement: for every database state and every id the handler answers 500
and deletes nothing.  This theorem evaluates the code's actual behaviour,
exhibiting the defect (which the repository's own documentation, spec §9,
acknowledges as a misspelled returning clause). -/
theorem deleteRequirement_C1_alwaysFails (db : DB) (id : Nat) :
    deleteRequirement db id = ⟨500, none, db⟩ := by
  have hq : (deleteRequirementSQL ==
      "DELETE FROM requirements WHERE id = $1 RETURNING *;") = false := by decide
  simp [deleteRequirement, runDeleteRequirement, hq]

/-! ## C4 — media uploader -/

/-- C4: `uploadMediaToCloudinary` classifies each file as image exactly when
its MIME type starts with `image` and as video otherwise; a file whose upload
fails contributes no URL but does not abort the batch (the function is total
and the remaining files are still processed); and the returned URL lists are
the input order restricted to each classification. -/
theorem uploadMediaToCloudinary_C4 (files : List MFile) :
    uploadMediaToCloudinary files =
      ⟨(files.filter MFile.isImage).filterMap MFile.uploadResult,
       (files.filter (fun f => !f.isImage)).filterMap MFile.uploadResult⟩ := by
  induction files with
  | nil => rfl
  | cons f fs ih =>
    simp only [uploadMediaToCloudinary, ih, List.filter_cons, List.filterMap_cons]
    cases hu : f.uploadResult <;> cases hi : f.isImage <;>
      simp [hu, hi, List.filterMap_cons]

/-! ## C2 — status invariant -/

/-- C2 counterexample: the claim says every persisted requirement's status is
non-null after every operation.  But `PUT /:id/status` passes `req.body.status`
to the UPDATE verbatim, and a request body without a `status` field stores SQL
NULL: starting from the fresh database, creating one requirement and then
updating its status with an absent body field yields HTTP 200 and a persisted
requirement whose status is null. -/
theorem updateStatus_C2_counterexample :
    (updateStatus dbAcme 1 none).status = 200 ∧
    ∃ r ∈ (updateStatus dbAcme 1 none).db.requirements, r.status = none := by
  decide

/-- Case analysis on the database reached by `createRequirement`: either the
request was rejected and the database is unchanged, or exactly one new row
with status `'Pending'` was appended. -/
lemma createRequirement_db_cases (db : DB)
    (customer contact type details followUp : Option String) (files : List MFile) :
    (createRequirement db customer contact type details followUp files).db = db ∨
    ∃ row : RequirementRow, row.status = some "Pending" ∧
      (createRequirement db customer contact type details followUp files).db.requirements =
        db.requirements ++ [row] := by
  simp only [createRequirement]
  split
  · exact Or.inl rfl
  · exact Or.inr ⟨_, rfl, rfl⟩

/-- Case analysis on the database reached by `updateStatus`: either the
database is unchanged (404), or every row keeps all its fields except that
rows with the matching id get the new status. -/
lemma updateStatus_db_cases (db : DB) (id : Nat) (st : Option String) :
    (updateStatus db id st).db = db ∨
    (updateStatus db id st).db.requirements =
      db.requirements.map (fun q => if q.id == id then { q with status := st } else q) := by
  simp only [updateStatus]
  split
  · exact Or.inl rfl
  · exact Or.inr rfl

/-- C2 amended: a requirement's status is non-null at creation (the INSERT
omits the column, so the table default `'Pending'` applies) and stays non-null
under every status update that supplies a status value; an update with an
absent status field, however, stores null. -/
theorem status_C2_amended (db : DB)
    (h : ∀ r ∈ db.requirements, r.status ≠ none)
    (customer contact type details followUp : Option String) (files : List MFile)
    (id : Nat) (s : String) :
    (∀ r ∈ (createRequirement db customer contact type details followUp files).db.requirements,
      r.status ≠ none) ∧
    (∀ r ∈ (updateStatus db id (some s)).db.requirements, r.status ≠ none) := by
  constructor
  · intro r hr
    rcases createRequirement_db_cases db customer contact type details followUp files with
      hc | ⟨row, hrow, hc⟩
    · rw [hc] at hr
      exact h r hr
    · rw [hc] at hr
      rcases List.mem_append.mp hr with hr | hr
      · exact h r hr
      · rw [List.mem_singleton.mp hr, hrow]
        simp
  · intro r hr
    rcases updateStatus_db_cases db id (some s) with hc | hc
    · rw [hc] at hr
      exact h r hr
    · rw [hc] at hr
      obtain ⟨q, hq, hqr⟩ := List.mem_map.mp hr
      by_cases hid : (q.id == id) = true
      · rw [hid] at hqr
        rw [← hqr]
        simp
      · rw [Bool.not_eq_true] at hid
        rw [hid] at hqr
        simp only [if_false, Bool.false_eq_true] at hqr
        rw [← hqr]
        exact h q hq

/-- Witness for the amended C2 theorem at a concrete state: after the `Acme`
creation and a status update to `Resolved`, every persisted status is
non-null. -/
theorem status_C2_amended_witness :
    (∀ r ∈ (createRequirement dbAcme (some "B") none (some "T") (some "D") none []).db.requirements,
      r.status ≠ none) ∧
    (∀ r ∈ (updateStatus dbAcme 1 (some "Resolved")).db.requirements, r.status ≠ none) :=
  status_C2_amended dbAcme (by decide) (some "B") none (some "T") (some "D") none [] 1 "Resolved"

/-! ## C3 — status update -/

/-- With pairwise-distinct keys, filtering a list for the key of one of its
members returns exactly that member (the `id` column is a primary key). -/
lemma filter_key_eq_singleton {α : Type} (key : α → Nat) (l : List α) (a : α) (k : Nat)
    (hnd : (l.map key).Nodup) (ha : a ∈ l) (hk : key a = k) :
    l.filter (fun x => key x == k) = [a] := by
  induction l with
  | nil => cases ha
  | cons b t ih =>
    rw [List.map_cons, List.nodup_cons] at hnd
    rcases List.mem_cons.mp ha with rfl | hat
    · have hb : (key a == k) = true := by simp [hk]
      rw [List.filter_cons, hb]
      simp only [if_true]
      have : t.filter (fun x => key x == k) = [] := by
        rw [List.filter_eq_nil_iff]
        intro x hx
        simp only [beq_iff_eq]
        intro hxk
        exact hnd.1 (hk ▸ hxk ▸ List.mem_map_of_mem key hx)
      rw [this]
    · have hb : (key b == k) = false := by
        simp only [beq_eq_false_iff_ne, ne_eq]
        intro hbk
        apply hnd.1
        rw [hbk, ← hk]
        exact List.mem_map_of_mem key hat
      rw [List.filter_cons, hb]
      simp only [Bool.false_eq_true, if_false]
      exact ih hnd.2 hat

/-- C3: with distinct ids (the primary key), `updateStatus` answers 404 and
leaves the database unchanged when no requirement has the id; on an existing
id it answers 200, returns the requirement with only its status replaced (all
other fields visibly those of the original row), rewrites exactly the rows
with that id in the table — changing only their status — and leaves every
other requirement untouched. -/
theorem updateStatus_C3 (db : DB) (id : Nat) (st : Option String)
    (hnd : (db.requirements.map RequirementRow.id).Nodup) :
    ((∀ r ∈ db.requirements, r.id ≠ id) → updateStatus db id st = ⟨404, none, db⟩) ∧
    (∀ r ∈ db.requirements, r.id = id →
      (updateStatus db id st).status = 200 ∧
      (updateStatus db id st).body = some { r with status := st } ∧
      (updateStatus db id st).db.requirements =
        db.requirements.map (fun q => if q.id == id then { q with status := st } else q) ∧
      (∀ q ∈ db.requirements, q.id ≠ id → q ∈ (updateStatus db id st).db.requirements)) := by
  constructor
  · intro hno
    have hfil : db.requirements.filter (fun r => r.id == id) = [] := by
      rw [List.filter_eq_nil_iff]
      intro r hr
      simpa using hno r hr
    simp [updateStatus, hfil]
  · intro r hr hid
    have hfil : db.requirements.filter (fun q => q.id == id) = [r] :=
      filter_key_eq_singleton RequirementRow.id db.requirements r id hnd hr hid
    refine ⟨?_, ?_, ?_, ?_⟩
    · simp [updateStatus, hfil]
    · simp [updateStatus, hfil]
    · simp [updateStatus, hfil]
    · intro q hq hqid
      have : (updateStatus db id st).db.requirements =
          db.requirements.map (fun p => if p.id == id then { p with status := st } else p) := by
        simp [updateStatus, hfil]
      rw [this]
      have hq' : (fun p : RequirementRow =>
          if p.id == id then { p with status := st } else p) q = q := by
        simp [hqid]
      exact hq' ▸ List.mem_map_of_mem _ hq

/-- Witness for C3 at a concrete state: in `dbAcme` (one requirement, id 1),
updating id 2 answers 404 unchanged, and updating id 1 to `Resolved` answers
200 with only the status changed. -/
theorem updateStatus_C3_witness :
    (updateStatus dbAcme 2 (some "Resolved") = ⟨404, none, dbAcme⟩) ∧
    (updateStatus dbAcme 1 (some "Resolved")).status = 200 := by
  constructor
  · exact (updateStatus_C3 dbAcme 2 (some "Resolved") (by decide)).1 (by decide)
  · have hr : (⟨1, "Acme", none, "Bug", "X", none, some "Pending", [], [], 0⟩ :
        RequirementRow) ∈ dbAcme.requirements := by decide
    exact ((updateStatus_C3 dbAcme 1 (some "Resolved") (by decide)).2 _ hr rfl).1

/-! ## C6 — create requirement validation -/

/-- C6: when `customer`, `type` or `details` is missing (or empty — JS
truthiness), `POST /api/requirements` answers 400 with no row persisted, and
neither the uploader nor the store is called: the validation check is the
first thing the handler does. -/
theorem createRequirement_C6 (db : DB)
    (customer contact type details followUp : Option String) (files : List MFile)
    (h : (falsy customer || falsy type || falsy details) = true) :
    createRequirement db customer contact type details followUp files =
      ⟨400, none, db, false, false⟩ := by
  simp [createRequirement, h]

/-- Witness for C6: creating with `customer` absent (type and details given)
is rejected with 400, an unchanged database, and no uploader or store call. -/
theorem createRequirement_C6_witness :
    createRequirement DB.empty none none (some "Bug") (some "X") none [sampleImage] =
      ⟨400, none, DB.empty, false, false⟩ :=
  createRequirement_C6 DB.empty none none (some "Bug") (some "X") none [sampleImage]
    (by decide)

/-! ## C8 — create requirement with no media -/

/-- Characterization of a valid `POST /api/requirements`: when the three
required fields are truthy the handler answers 201 with the new row — status
`'Pending'`, media from the uploader, the next serial id and timestamp — and
appends it to the table. -/
lemma createRequirement_valid (db : DB)
    (customer contact type details followUp : Option String) (files : List MFile)
    (h : (falsy customer || falsy type || falsy details) = false) :
    createRequirement db customer contact type details followUp files =
      ⟨201,
       some ⟨db.nextReqId, customer.getD "", contact, type.getD "", details.getD "",
         followUp, some "Pending", (uploadMediaToCloudinary files).images,
         (uploadMediaToCloudinary files).videos, db.clock⟩,
       { db with
         requirements := db.requirements ++
           [⟨db.nextReqId, customer.getD "", contact, type.getD "", details.getD "",
             followUp, some "Pending", (uploadMediaToCloudinary files).images,
             (uploadMediaToCloudinary files).videos, db.clock⟩],
         nextReqId := db.nextReqId + 1,
         clock := db.clock + 1 },
       true, true⟩ := by
  simp only [createRequirement, h, Bool.false_eq_true, if_false]

/-- C8: a valid `POST /api/requirements` with zero media files answers 201
and returns a persisted requirement with empty `images` and `videos` and
status `'Pending'`. -/
theorem createRequirement_C8 (db : DB)
    (customer contact type details followUp : Option String)
    (hc : falsy customer = false) (ht : falsy type = false) (hd : falsy details = false) :
    (createRequirement db customer contact type details followUp []).status = 201 ∧
    ∃ r : RequirementRow,
      (createRequirement db customer contact type details followUp []).body = some r ∧
      r.images = [] ∧ r.videos = [] ∧ r.status = some "Pending" ∧
      r ∈ (createRequirement db customer contact type details followUp []).db.requirements := by
  have h : (falsy customer || falsy type || falsy details) = false := by
    simp [hc, ht, hd]
  rw [createRequirement_valid db customer contact type details followUp [] h]
  exact ⟨rfl, _, rfl, rfl, rfl, rfl, by simp⟩

/-- Witness for C8: the `Acme` creation on the fresh database answers 201
with empty media lists and status `'Pending'`. -/
theorem createRequirement_C8_witness :
    (createRequirement DB.empty (some "Acme") none (some "Bug") (some "X") none []).status = 201 ∧
    ∃ r : RequirementRow,
      (createRequirement DB.empty (some "Acme") none (some "Bug") (some "X") none []).body = some r ∧
      r.images = [] ∧ r.videos = [] ∧ r.status = some "Pending" ∧
      r ∈ (createRequirement DB.empty (some "Acme") none (some "Bug") (some "X") none []).db.requirements :=
  createRequirement_C8 DB.empty (some "Acme") none (some "Bug") (some "X") none
    (by decide) (by decide) (by decide)

/-! ## C5 — comment validation -/

/-- C5: `POST /api/requirements/:id/comments` answers 400 exactly when the
text is falsy (absent or empty) and no media file is supplied; and whenever
the requirement exists, an empty text with at least one media file still
creates the comment with 201. -/
theorem addComment_C5 (db : DB) (reqId : Nat) (text : Option String) (files : List MFile) :
    ((addComment db reqId text files).status = 400 ↔ (falsy text = true ∧ files = [])) ∧
    ((db.requirements.any (fun r => r.id == reqId)) = true → falsy text = true →
      files ≠ [] → (addComment db reqId text files).status = 201) := by
  constructor
  · constructor
    · intro h4
      by_cases hcond : (falsy text && files.isEmpty) = true
      · rw [Bool.and_eq_true, List.isEmpty_iff] at hcond
        exact hcond
      · exfalso
        rw [Bool.not_eq_true] at hcond
        simp only [addComment, hcond, Bool.false_eq_true, if_false] at h4
        cases hins : insertComment db reqId text (uploadMediaToCloudinary files).images
            (uploadMediaToCloudinary files).videos with
        | ok p => rw [hins] at h4; simp at h4
        | error e => rw [hins] at h4; simp at h4
    · rintro ⟨hft, rfl⟩
      simp [addComment, hft]
  · intro hany hft hne
    have hcond : (falsy text && files.isEmpty) = false := by
      have he : files.isEmpty = false := by
        rw [← Bool.not_eq_true, List.isEmpty_iff]
        exact hne
      rw [he, Bool.and_false]
    simp only [addComment, hcond, Bool.false_eq_true, if_false]
    simp only [insertComment, hany, if_true]

/-- Witness for C5 at concrete inputs: in `dbAcme`, an empty-text comment
with no media on requirement 1 answers 400, and an empty-text comment with
one media file answers 201. -/
theorem addComment_C5_witness :
    (addComment dbAcme 1 (some "") []).status = 400 ∧
    (addComment dbAcme 1 (some "") [sampleImage]).status = 201 := by
  constructor
  · exact (addComment_C5 dbAcme 1 (some "") []).1.mpr ⟨by decide, rfl⟩
  · exact (addComment_C5 dbAcme 1 (some "") [sampleImage]).2 (by decide) (by decide)
      (by decide)

/-! ## C7 — create type -/

/-- C7: `POST /api/types` answers 400 with an unchanged database when the
name is falsy; and when the (truthy) name already exists, the UNIQUE
constraint rejects the INSERT and the caught store error is answered as a
plain 500 — the conflict is not distinguished from generic failure — again
with an unchanged database. -/
theorem createType_C7 (db : DB) (name : Option String) :
    (falsy name = true → createType db name = ⟨400, none, db⟩) ∧
    (∀ s : String, name = some s → s ≠ "" →
      (∃ t ∈ db.requirement_types, t.name = s) →
      (createType db name).status = 500 ∧ (createType db name).db = db) := by
  constructor
  · intro h
    simp [createType, h]
  · rintro s rfl hs ⟨t, ht, hts⟩
    have hf : falsy (some s) = false := by
      simp [falsy, hs]
    have hany : (db.requirement_types.any (fun u => u.name == s)) = true := by
      rw [List.any_eq_true]
      exact ⟨t, ht, by simp [hts]⟩
    simp only [createType, hf, Bool.false_eq_true, if_false, Option.getD_some]
    simp only [insertType, hany, if_true]
    exact ⟨by trivial, by trivial⟩

/-- Witness for C7 at a concrete state: in `dbBugType` (one type, `Bug`), a
missing name answers 400 unchanged, and creating `Bug` again answers 500. -/
theorem createType_C7_witness :
    createType dbBugType none = ⟨400, none, dbBugType⟩ ∧
    (createType dbBugType (some "Bug")).status = 500 := by
  constructor
  · exact (createType_C7 dbBugType none).1 (by decide)
  · exact ((createType_C7 dbBugType (some "Bug")).2 "Bug" rfl (by decide)
      ⟨⟨1, "Bug"⟩, by decide, rfl⟩).1

/-! ## C10 — comment on a nonexistent requirement -/

/-- C10: the comment route performs no existence check on the requirement id.
When no requirement has the id and the body passes validation, the INSERT
hits the foreign-key constraint; the caught store error is answered as a
generic 500 — never as a 404. -/
theorem addComment_C10 (db : DB) (reqId : Nat) (text : Option String) (files : List MFile)
    (hno : ∀ r ∈ db.requirements, r.id ≠ reqId)
    (hbody : (falsy text && files.isEmpty) = false) :
    (addComment db reqId text files).status = 500 ∧
    (addComment db reqId text files).status ≠ 404 := by
  have hany : (db.requirements.any (fun r => r.id == reqId)) = false := by
    rw [← Bool.not_eq_true, List.any_eq_true]
    rintro ⟨r, hr, hid⟩
    exact hno r hr (by simpa using hid)
  simp only [addComment, hbody, Bool.false_eq_true, if_false]
  simp only [insertComment, hany, Bool.false_eq_true, if_false]
  exact ⟨by trivial, by decide⟩

/-- Witness for C10: in `dbAcme` (only requirement id 1), commenting on the
nonexistent requirement 99 with valid text answers 500, not 404. -/
theorem addComment_C10_witness :
    (addComment dbAcme 99 (some "hi") []).status = 500 ∧
    (addComment dbAcme 99 (some "hi") []).status ≠ 404 :=
  addComment_C10 dbAcme 99 (some "hi") [] (by decide) (by decide)

/-! ## C9 — listing order -/

instance : IsTotal RequirementRow (fun a b => b.created_at ≤ a.created_at) :=
  ⟨fun a b => Nat.le_total b.created_at a.created_at⟩

instance : IsTrans RequirementRow (fun a b => b.created_at ≤ a.created_at) :=
  ⟨fun _ _ _ hab hbc => Nat.le_trans hbc hab⟩

instance : IsTotal CommentRow (fun a b => a.created_at ≤ b.created_at) :=
  ⟨fun a b => Nat.le_total a.created_at b.created_at⟩

instance : IsTrans CommentRow (fun a b => a.created_at ≤ b.created_at) :=
  ⟨fun _ _ _ => Nat.le_trans⟩

instance : IsTotal TypeRow (fun a b => a.name ≤ b.name) :=
  ⟨fun a b => le_total a.name b.name⟩

instance : IsTrans TypeRow (fun a b => a.name ≤ b.name) :=
  ⟨fun _ _ _ => le_trans⟩

/-- C9: `GET /api/requirements` returns all requirements (a permutation of
the table) sorted newest-created-first, each carrying exactly its own
comments (a permutation of the rows with its `requirement_id`) sorted
oldest-first; and `GET /api/types` returns all requirement types sorted by
name ascending. -/
theorem list_C9 (db : DB) :
    ((listRequirements db).map RequirementWithComments.row).Perm db.requirements ∧
    (listRequirements db).Sorted (fun a b => b.row.created_at ≤ a.row.created_at) ∧
    (∀ x ∈ listRequirements db,
      x.comments.Perm (db.comments.filter (fun c => c.requirement_id == x.row.id)) ∧
      x.comments.Sorted (fun a b => a.created_at ≤ b.created_at)) ∧
    (listTypes db).Perm db.requirement_types ∧
    (listTypes db).Sorted (fun a b => a.name ≤ b.name) := by
  refine ⟨?_, ?_, ?_, ?_, ?_⟩
  · have hmap : (listRequirements db).map RequirementWithComments.row =
        List.insertionSort (fun a b => b.created_at ≤ a.created_at) db.requirements := by
      simp only [listRequirements, List.map_map]
      have hco : (RequirementWithComments.row ∘ fun r =>
          (⟨r, commentsFor db r.id⟩ : RequirementWithComments)) = id := rfl
      rw [hco, List.map_id]
    rw [hmap]
    exact List.perm_insertionSort _ _
  · exact List.Pairwise.map _ (fun a b h => h)
      (List.sorted_insertionSort (fun a b : RequirementRow => b.created_at ≤ a.created_at)
        db.requirements)
  · intro x hx
    simp only [listRequirements, List.mem_map] at hx
    obtain ⟨r, _, rfl⟩ := hx
    exact ⟨List.perm_insertionSort _ _, List.sorted_insertionSort _ _⟩
  · exact List.perm_insertionSort _ _
  · exact List.sorted_insertionSort _ _
